import Mathlib

/-!
Shallow embedding of the Instagram scraping service
(`instagram-story-downloader/backend/story_service.py` and the posts HTTP
endpoint of `instagram-media-downloader/backend/main.py`).

Upstream HTTP traffic is modelled by environments that record, for each
outbound call the code can make, the response the network would deliver;
each Python method becomes a pure Lean function of that environment which
also returns the trace of requests it issued.
-/

/-- Decidable equality of `Except` results, for evaluating the model on
concrete inputs. -/
instance {ε α : Type} [DecidableEq ε] [DecidableEq α] : DecidableEq (Except ε α) :=
  fun a b =>
    match a, b with
    | .ok x, .ok y =>
        if h : x = y then isTrue (by rw [h]) else isFalse (by intro hc; cases hc; exact h rfl)
    | .error x, .error y =>
        if h : x = y then isTrue (by rw [h]) else isFalse (by intro hc; cases hc; exact h rfl)
    | .ok _, .error _ => isFalse (by intro hc; cases hc)
    | .error _, .ok _ => isFalse (by intro hc; cases hc)

namespace Portfolio

/-! ### Media payloads (upstream JSON shapes used by the parsers) -/

/-- One entry of `video_versions` / `image_versions2.candidates`: only the
`url` field is read by the code. -/
structure Variant where
  url : String
  deriving Repr, DecidableEq

/-- The fields of a story item read by `_parse_story_item`:
`pk`, `video_versions`, `image_versions2.candidates`, `taken_at`.
`candidates` stands for `item.get("image_versions2", {}).get("candidates", [])`. -/
structure StoryItem where
  pk : String
  videoVersions : List Variant
  candidates : List Variant
  takenAt : Nat
  deriving Repr, DecidableEq

/-- `media_type` strings produced by the service (`"video"` / `"image"`). -/
inductive MediaKind
  | image
  | video
  deriving Repr, DecidableEq

/-- Stand-in for `datetime.fromtimestamp(taken_at, tz=timezone.utc).isoformat()`.
The exact ISO-8601 rendering is a Python library detail; the model only needs
a function of `taken_at`, which is what the code computes. -/
def isoTimestamp (takenAt : Nat) : String :=
  "utc+" ++ toString takenAt

/-- The dict returned by `_parse_story_item`. -/
structure StoryMedia where
  id : String
  mediaType : MediaKind
  url : String
  thumbnailUrl : Option String
  timestamp : String
  username : String
  deriving Repr, DecidableEq

/-- `InstagramService._parse_story_item` (story_service.py lines 412-433).
`has_video = bool(item.get("video_versions"))` is the match on
`videoVersions`; a nonempty list is truthy. -/
def parseStoryItem (item : StoryItem) (username : String) : StoryMedia :=
  match item.videoVersions with
  | v :: _ =>
      { id := item.pk
        mediaType := .video
        url := v.url
        thumbnailUrl := (item.candidates.head?).map Variant.url
        timestamp := isoTimestamp item.takenAt
        username := username }
  | [] =>
      { id := item.pk
        mediaType := .image
        url := ((item.candidates.head?).map Variant.url).getD ""
        thumbnailUrl := none
        timestamp := isoTimestamp item.takenAt
        username := username }

/-- The media-bearing fields of a post or carousel sub-item handed to
`_extract_media`: `pk` (absent ⇒ the parent `post_id` is used),
`video_versions`, `image_versions2.candidates`. -/
structure MediaPayload where
  pk : Option String
  videoVersions : List Variant
  candidates : List Variant
  deriving Repr, DecidableEq

/-- The fields of a feed post read by `_parse_post_item`: `media_type`
(8 = carousel), the caption object's `text` (`none` models a missing/null
`caption`), `taken_at`, `pk`, `like_count`, `carousel_media`, and the post's
own media fields. -/
structure PostItem where
  mediaType : Nat
  caption : Option String
  takenAt : Nat
  pk : String
  likeCount : Nat
  carouselMedia : List MediaPayload
  videoVersions : List Variant
  candidates : List Variant
  deriving Repr, DecidableEq

/-- The dict returned by `_extract_media`. -/
structure PostMedia where
  id : String
  postId : String
  mediaType : MediaKind
  url : String
  thumbnailUrl : Option String
  timestamp : String
  username : String
  caption : String
  likeCount : Nat
  carouselIndex : Option Nat
  carouselTotal : Option Nat
  deriving Repr, DecidableEq

/-- `InstagramService._extract_media` (story_service.py lines 510-549). -/
def extractMedia (item : MediaPayload) (username timestamp caption postId : String)
    (likeCount : Nat) (carouselIndex carouselTotal : Option Nat) : PostMedia :=
  let mediaId :=
    match carouselIndex with
    | some i => postId ++ "_" ++ toString i
    | none => item.pk.getD postId
  match item.videoVersions with
  | v :: _ =>
      { id := mediaId
        postId := postId
        mediaType := .video
        url := v.url
        thumbnailUrl := (item.candidates.head?).map Variant.url
        timestamp := timestamp
        username := username
        caption := caption
        likeCount := likeCount
        carouselIndex := carouselIndex
        carouselTotal := carouselTotal }
  | [] =>
      { id := mediaId
        postId := postId
        mediaType := .image
        url := ((item.candidates.head?).map Variant.url).getD ""
        thumbnailUrl := none
        timestamp := timestamp
        username := username
        caption := caption
        likeCount := likeCount
        carouselIndex := carouselIndex
        carouselTotal := carouselTotal }

/-- `InstagramService._parse_post_item` (story_service.py lines 484-508).
A `media_type == 8` post expands its `carousel_media` with `enumerate`;
any other post yields a single item built from the post's own media fields. -/
def parsePostItem (item : PostItem) (username : String) : List PostMedia :=
  let caption := item.caption.getD ""
  let ts := isoTimestamp item.takenAt
  let postId := item.pk
  if item.mediaType = 8 then
    item.carouselMedia.enum.map (fun p =>
      extractMedia p.2 username ts caption postId item.likeCount
        (some p.1) (some item.carouselMedia.length))
  else
    [extractMedia ⟨some item.pk, item.videoVersions, item.candidates⟩
      username ts caption postId item.likeCount none none]

/-! ### API helpers with the refresh-and-retry-once policy -/

/-- An upstream HTTP response: status code and (abstract) JSON body. -/
structure HttpResp where
  status : Nat
  body : String
  deriving Repr, DecidableEq

/-- The errors `_api_get` / `_api_post` raise: the rate-limit `ValueError`
for a 429, the generic `Instagram API エラー (HTTP n)` `ValueError` otherwise. -/
inductive ApiErr
  | rateLimited
  | upstream (status : Nat)
  deriving Repr, DecidableEq

/-- Observable actions of one `_api_get` / `_api_post` invocation: an outbound
HTTP call, or a call to `_refresh_session`. -/
inductive ApiAction
  | httpCall
  | refreshAttempt
  deriving Repr, DecidableEq

/-- The tail of `_api_get`/`_api_post` (story_service.py lines 233-237 and
254-258): classify the response finally held in `resp`. -/
def classifyResp (r : HttpResp) : Except ApiErr String :=
  if r.status = 429 then .error .rateLimited
  else if r.status ≠ 200 then .error (.upstream r.status)
  else .ok r.body

/-- `InstagramService._api_get` (story_service.py lines 218-237).
`r1` is the response the network gives the first call, `refreshOk` the
outcome `_refresh_session()` would have, `r2` the response to the retried
call (consulted only when the code actually retries).  Returns the result
together with the trace of HTTP calls and refresh attempts. -/
def apiGetRun (r1 : HttpResp) (refreshOk : Bool) (r2 : HttpResp) :
    Except ApiErr String × List ApiAction :=
  if r1.status = 401 ∨ r1.status = 403 then
    if refreshOk then
      (classifyResp r2, [.httpCall, .refreshAttempt, .httpCall])
    else
      (classifyResp r1, [.httpCall, .refreshAttempt])
  else
    (classifyResp r1, [.httpCall])

/-- `InstagramService._api_post` (story_service.py lines 239-258): the code
is a verbatim duplicate of `_api_get` with `session.post` in place of
`session.get`, so its model has the same body. -/
def apiPostRun (r1 : HttpResp) (refreshOk : Bool) (r2 : HttpResp) :
    Except ApiErr String × List ApiAction :=
  if r1.status = 401 ∨ r1.status = 403 then
    if refreshOk then
      (classifyResp r2, [.httpCall, .refreshAttempt, .httpCall])
    else
      (classifyResp r1, [.httpCall, .refreshAttempt])
  else
    (classifyResp r1, [.httpCall])

/-! ### Session management -/

/-- The session-related mutable fields of `InstagramService`:
`_loaded`, `_session_username`, `_needs_manual_refresh`. -/
structure SvcState where
  loaded : Bool
  sessionUsername : Option String
  needsManualRefresh : Bool
  deriving Repr, DecidableEq

/-- The state `InstagramService.__init__` establishes. -/
def initState : SvcState :=
  { loaded := false, sessionUsername := none, needsManualRefresh := false }

/-- What `self._loader.login(username, password)` would do if attempted:
succeed, or raise one of the exceptions `_try_login` distinguishes
(`TwoFactorAuthRequiredException`, a `ConnectionException` whose text contains
`challenge_required`, any other `ConnectionException`, any other exception). -/
inductive LoginOutcome
  | success
  | twoFA
  | challengeRequired
  | otherConnErr
  | otherErr
  deriving Repr, DecidableEq

/-- Environment for the session-management methods.
`creds` is `some (u, p)` when both `IG_USERNAME` and `IG_PASSWORD` are set and
nonempty after `strip()`; `files` are the `session-*` files as
(username-from-filename, mtime) pairs; `loadOk` says whether
`load_session_from_file` on the newest file succeeds; `hasSessionId` whether
the loaded cookie jar has a nonempty `sessionid` cookie. -/
structure SessionEnv where
  creds : Option (String × String)
  loginOutcome : LoginOutcome
  files : List (String × Nat)
  loadOk : Bool
  hasSessionId : Bool

/-- The head of `sorted(SESSION_DIR.glob("session-*"), key=mtime, reverse=True)`:
the first file with maximal mtime. -/
def newestSessionFile : List (String × Nat) → Option (String × Nat)
  | [] => none
  | f :: fs =>
      match newestSessionFile fs with
      | none => some f
      | some g => some (if g.2 ≤ f.2 then f else g)

/-- `InstagramService._try_login` (story_service.py lines 102-137). -/
def tryLogin (env : SessionEnv) (st : SvcState) : SvcState × Bool :=
  match env.creds with
  | none => (st, false)
  | some (u, _) =>
      match env.loginOutcome with
      | .success =>
          ({ loaded := true, sessionUsername := some u, needsManualRefresh := false }, true)
      | .twoFA => ({ st with needsManualRefresh := true }, false)
      | .challengeRequired => ({ st with needsManualRefresh := true }, false)
      | .otherConnErr => (st, false)
      | .otherErr => (st, false)

/-- `InstagramService.load_session` (story_service.py lines 54-100). -/
def loadSession (env : SessionEnv) (st : SvcState) : SvcState × Bool :=
  if st.loaded then (st, true)
  else
    match newestSessionFile env.files with
    | none =>
        -- no session files: try auto-login, else report failure
        let (st1, ok) := tryLogin env st
        (st1, ok)
    | some (uname, _) =>
        if env.loadOk then
          let st1 : SvcState :=
            { loaded := true, sessionUsername := some uname
              needsManualRefresh := st.needsManualRefresh }
          if env.hasSessionId then (st1, true)
          else
            -- sessionid cookie empty: auto-login attempted, result only logged
            let (st2, _) := tryLogin env st1
            (st2, true)
        else (st, false)

/-- `InstagramService._refresh_session` (story_service.py lines 139-168). -/
def refreshSession (env : SessionEnv) (st : SvcState) : SvcState × Bool :=
  let st0 : SvcState := { st with loaded := false }
  let (st1, ok) := tryLogin env st0
  if ok then (st1, true)
  else
    match newestSessionFile env.files with
    | none => ({ st1 with needsManualRefresh := true }, false)
    | some (uname, _) =>
        if env.loadOk then
          ({ st1 with loaded := true, sessionUsername := some uname }, true)
        else
          ({ st1 with needsManualRefresh := true }, false)

/-- The dict returned by the `session_status` property
(story_service.py lines 175-187). -/
structure SessionStatus where
  loggedIn : Bool
  username : Option String
  hasSessionId : Bool
  needsManualRefresh : Bool
  deriving Repr, DecidableEq

/-- `InstagramService.session_status`: `has_sessionid` is only consulted when
`_loaded` is true. -/
def sessionStatus (st : SvcState) (cookieHasSessionId : Bool) : SessionStatus :=
  { loggedIn := st.loaded
    username := st.sessionUsername
    hasSessionId := st.loaded && cookieHasSessionId
    needsManualRefresh := st.needsManualRefresh }

/-! ### Resolver -/

/-- The user dict `_resolve_user` builds (and `_enrich_user_info` extends
with `media_count`). -/
structure Identity where
  userId : Nat
  username : String
  fullName : String
  profilePicUrl : String
  isPrivate : Bool
  followers : Nat
  mediaCount : Option Nat
  deriving Repr, DecidableEq

/-- Errors of the service layer, following the spec's taxonomy: the
`ValueError`s the service raises, keyed by which message they carry. -/
inductive SvcErr
  | sessionMissing
  | notFound (username : String)
  | privateAccount (username : String)
  | rateLimited
  | upstream (status : Nat)
  deriving Repr, DecidableEq

/-- Map an `_api_get`/`_api_post` error to the service taxonomy. -/
def svcErrOfApi : ApiErr → SvcErr
  | .rateLimited => .rateLimited
  | .upstream s => .upstream s

/-- Outcome of `instaloader.Profile.from_username` (resolver method 1):
a profile, `ProfileNotExistsException`, or any other exception. -/
inductive ProfileLookup
  | found (ident : Identity)
  | notExists
  | err
  deriving Repr, DecidableEq

/-- One entry of the `users` array from `web/search/topsearch/`
(the fields method 2 reads). -/
structure SearchUser where
  username : String
  pk : Nat
  fullName : String
  profilePicUrl : String
  isPrivate : Bool
  followerCount : Nat
  deriving Repr, DecidableEq

/-- Outcome of the HTML-scrape fallback (resolver method 3).
`okFound` is a 200 page on which an id regex matched, carrying the regexed
user id, the `og:title`-derived name (if that regex matched) and the
profile-pic url (if that regex matched); `okNoMatch` a 200 page with no id
match; `status404` a 404; `otherStatus` any other status; `exn` a raised
request exception. -/
inductive ScrapeOutcome
  | okFound (userId : Nat) (fullName : Option String) (profilePic : Option String)
  | okNoMatch
  | status404
  | otherStatus (code : Nat)
  | exn
  deriving Repr, DecidableEq

/-- The three resolver strategies, in the order the code tries them. -/
inductive Strategy
  | profileLookup
  | searchApi
  | htmlScrape
  deriving Repr, DecidableEq

/-- What the network/upstream would answer each resolver strategy.
`search` is `none` when the `web/search/topsearch/` call raises (any
exception, rate-limit and upstream errors included), else the `users` list. -/
structure ResolveEnv where
  m1 : ProfileLookup
  m2 : Option (List SearchUser)
  m3 : ScrapeOutcome
  deriving Repr, DecidableEq

/-- `InstagramService._resolve_user` (story_service.py lines 264-357),
returning the result together with the list of strategies actually run.
Method 2 accepts the first user whose `username.lower()` equals the queried
`username.lower()`; method 3 returns `is_private = False` and `followers = 0`
unconditionally. -/
def resolveUser (loaded : Bool) (env : ResolveEnv) (username : String) :
    Except SvcErr Identity × List Strategy :=
  if loaded = false then (.error .sessionMissing, [])
  else
    match env.m1 with
    | .found p => (.ok p, [.profileLookup])
    | .notExists => (.error (.notFound username), [.profileLookup])
    | .err =>
        let m2Hit : Option SearchUser :=
          match env.m2 with
          | some users =>
              users.find? (fun u => u.username.toLower = username.toLower)
          | none => none
        match m2Hit with
        | some u =>
            (.ok { userId := u.pk, username := u.username, fullName := u.fullName
                   profilePicUrl := u.profilePicUrl, isPrivate := u.isPrivate
                   followers := u.followerCount, mediaCount := none },
             [.profileLookup, .searchApi])
        | none =>
            match env.m3 with
            | .okFound uid fn pic =>
                (.ok { userId := uid, username := username
                       fullName := fn.getD username, profilePicUrl := pic.getD ""
                       isPrivate := false, followers := 0, mediaCount := none },
                 [.profileLookup, .searchApi, .htmlScrape])
            | .status404 =>
                (.error (.notFound username), [.profileLookup, .searchApi, .htmlScrape])
            | .okNoMatch =>
                (.error (.notFound username), [.profileLookup, .searchApi, .htmlScrape])
            | .otherStatus _ =>
                (.error (.notFound username), [.profileLookup, .searchApi, .htmlScrape])
            | .exn =>
                (.error (.notFound username), [.profileLookup, .searchApi, .htmlScrape])

/-! ### Fetchers -/

/-- `user` object embedded in a reel of the `feed/reels_media/` response. -/
structure ReelUser where
  fullName : Option String
  profilePicUrl : Option String
  deriving Repr, DecidableEq

/-- `data["reels"][str(user_id)]` of the `feed/reels_media/` response:
its `items` and its optional `user` object. -/
structure ReelData where
  items : List StoryItem
  ruser : Option ReelUser
  deriving Repr, DecidableEq

/-- The fields `_enrich_user_info` reads from `users/{id}/info/`. -/
structure EnrichInfo where
  followerCount : Nat
  mediaCount : Nat
  fullName : String
  profilePicUrl : String
  deriving Repr, DecidableEq

/-- Outcome of one page fetch `_api_get(f"feed/user/{id}/", ...)` inside
`get_posts`: either a page (its `items`, `more_available`, `next_max_id` —
`none` models a missing key, `some ""` an empty token) or a raised error. -/
inductive PageResult
  | ok (items : List PostItem) (moreAvailable : Bool) (nextMaxId : Option String)
  | err (e : ApiErr)
  deriving Repr, DecidableEq

/-- Outbound requests issued by the fetchers after resolution:
the `feed/reels_media/` POST, a `feed/user/{id}/` page GET, and the
`users/{id}/info/` enrichment GET. -/
inductive Request
  | reelsMedia
  | feedPage
  | userInfo
  deriving Repr, DecidableEq

/-- Environment of one fetcher invocation: the session flag, the resolver's
environment, the outcome of the `users/{id}/info/` call (`none` = raised),
the outcome of `feed/reels_media/`, and the successive outcomes of the feed
page fetches. -/
structure Env where
  loaded : Bool
  resolve : ResolveEnv
  enrich : Option EnrichInfo
  reels : Except ApiErr ReelData
  pages : List PageResult

/-- `InstagramService._enrich_user_info` (story_service.py lines 359-376):
skipped without a request when `user["followers"]` is truthy; a raised
enrichment call is swallowed and leaves the user unchanged. -/
def enrichUserInfo (env : Env) (user : Identity) : Identity × List Request :=
  if user.followers ≠ 0 then (user, [])
  else
    match env.enrich with
    | some info =>
        ({ user with
            followers := info.followerCount
            mediaCount := some info.mediaCount
            fullName := if user.fullName = "" then info.fullName else user.fullName
            profilePicUrl :=
              if user.profilePicUrl = "" then info.profilePicUrl else user.profilePicUrl },
         [.userInfo])
    | none => (user, [.userInfo])

/-- `InstagramService.get_stories` (story_service.py lines 382-410),
with the trace of post-resolution requests it issued. -/
def getStories (env : Env) (username : String) :
    Except SvcErr (Identity × List StoryMedia) × List Request :=
  match resolveUser env.loaded env.resolve username with
  | (.error e, _) => (.error e, [])
  | (.ok user, _) =>
      if user.isPrivate then (.error (.privateAccount username), [])
      else
        match env.reels with
        | .error e => (.error (svcErrOfApi e), [.reelsMedia])
        | .ok reel =>
            let user1 :=
              match reel.ruser with
              | some ru =>
                  { user with
                      fullName :=
                        if user.fullName = "" then ru.fullName.getD user.fullName
                        else user.fullName
                      profilePicUrl :=
                        if user.profilePicUrl = "" then ru.profilePicUrl.getD ""
                        else user.profilePicUrl }
              | none => user
            let (user2, reqs) := enrichUserInfo env user1
            (.ok (user2, reel.items.map (fun it => parseStoryItem it username)),
             Request.reelsMedia :: reqs)

/-- The fixed `page_size = 12` of `get_posts`. -/
def pageSize : Nat := 12

/-- The `while len(all_posts) < max_posts` loop of `get_posts`
(story_service.py lines 455-480), consuming the scripted page outcomes in
order.  Returns the accumulated posts and the number of page fetches issued.
A raised fetch is caught (`except Exception: break`); an empty `items`,
`more_available` falsy, or a falsy `next_max_id` all `break`. -/
def getPostsLoop (username : String) (maxPosts : Int) :
    List PageResult → List PostMedia → List PostMedia × Nat
  | [], acc => (acc, 0)
  | page :: rest, acc =>
    if (acc.length : Int) < maxPosts then
      match page with
      | .err _ => (acc, 1)
      | .ok items more nextId =>
          if items.isEmpty then (acc, 1)
          else
            let acc1 := acc ++ (items.map (fun it => parsePostItem it username)).flatten
            if more then
              if nextId.getD "" = "" then (acc1, 1)
              else
                let (res, n) := getPostsLoop username maxPosts rest acc1
                (res, n + 1)
            else (acc1, 1)
    else (acc, 0)

/-- `InstagramService.get_posts` (story_service.py lines 439-482), with the
trace of post-resolution requests.  The final `all_posts[:max_posts]` is
`List.take maxPosts.toNat`: when `max_posts ≤ 0` the loop body never runs, so
`all_posts` is empty and the Python negative-slice corner coincides. -/
def getPosts (env : Env) (username : String) (maxPosts : Int) :
    Except SvcErr (Identity × List PostMedia) × List Request :=
  match resolveUser env.loaded env.resolve username with
  | (.error e, _) => (.error e, [])
  | (.ok user, _) =>
      if user.isPrivate then (.error (.privateAccount username), [])
      else
        let (user1, reqs) := enrichUserInfo env user
        let (allPosts, n) := getPostsLoop username maxPosts env.pages []
        (.ok (user1, allPosts.take maxPosts.toNat),
         reqs ++ List.replicate n Request.feedPage)

/-! ### HTTP posts endpoint (instagram-media-downloader/backend/main.py) -/

/-- The `/api/posts/{username}` handler's service invocation
(main.py lines 127-139): `service.get_posts(username, max_posts=min(count, 500))`. -/
def apiGetPosts (env : Env) (username : String) (count : Int) :
    Except SvcErr (Identity × List PostMedia) × List Request :=
  getPosts env username (min count 500)

/-! ### Concrete fixtures used by witnesses and counterexamples -/

/-- A plain (non-carousel) image post. -/
def simpleImagePost : PostItem :=
  { mediaType := 1, caption := some "c", takenAt := 5, pk := "p1", likeCount := 3
    carouselMedia := [], videoVersions := [], candidates := [⟨"http://img"⟩] }

/-- A resolved public user with a known follower count (so `_enrich_user_info`
is skipped). -/
def aliceIdent : Identity :=
  { userId := 7, username := "alice", fullName := "Alice", profilePicUrl := "pic"
    isPrivate := false, followers := 10, mediaCount := none }

/-- Environment in which the first posts page succeeds with one item and the
second page fetch hits the upstream rate limit (HTTP 429). -/
def envRateLimitedPage : Env :=
  { loaded := true
    resolve := { m1 := .found aliceIdent, m2 := none, m3 := .exn }
    enrich := none
    reels := .error .rateLimited
    pages := [.ok [simpleImagePost] true (some "cursor"), .err .rateLimited] }

/-- Environment in which every page holds a single post, so pages contribute
fewer than `page_size` items each. -/
def envSmallPages : Env :=
  { loaded := true
    resolve := { m1 := .found aliceIdent, m2 := none, m3 := .exn }
    enrich := none
    reels := .error .rateLimited
    pages := [.ok [simpleImagePost] true (some "a"), .ok [simpleImagePost] false none] }

/-- Environment with one full page of `page_size` plain posts. -/
def envFullPage : Env :=
  { loaded := true
    resolve := { m1 := .found aliceIdent, m2 := none, m3 := .exn }
    enrich := none
    reels := .error .rateLimited
    pages := [.ok (List.replicate pageSize simpleImagePost) false none] }

/-- The parsed posts of `envFullPage`'s single page. -/
def fullPagePosts : List PostMedia :=
  ((List.replicate pageSize simpleImagePost).map
    (fun it => parsePostItem it "alice")).flatten

/-! ### Helper lemmas -/

lemma classifyResp_unauthorized (r : HttpResp) (h : r.status = 401 ∨ r.status = 403) :
    classifyResp r = Except.error (ApiErr.upstream r.status) := by
  rcases h with h | h <;> simp [classifyResp, h]

/-- `get_posts` truncates with `all_posts[:max_posts]`, so a successful result
never exceeds the requested count. -/
lemma getPosts_ok_length_le (env : Env) (username : String) (maxPosts : Int)
    (user : Identity) (posts : List PostMedia)
    (h : (getPosts env username maxPosts).1 = Except.ok (user, posts)) :
    posts.length ≤ maxPosts.toNat := by
  unfold getPosts at h
  rcases hres : resolveUser env.loaded env.resolve username with ⟨r, tr⟩
  rw [hres] at h
  cases r with
  | error e => simp at h
  | ok u =>
    by_cases hp : u.isPrivate
    · simp [hp] at h
    · rcases henr : enrichUserInfo env u with ⟨u1, reqs⟩
      rcases hloop : getPostsLoop username maxPosts env.pages [] with ⟨allPosts, n⟩
      simp [hp, henr, hloop] at h
      rcases h with ⟨-, h2⟩
      subst h2
      exact List.length_take_le maxPosts.toNat allPosts

/-! ### Claims -/

/-- C1: for every authenticated API call (GET or POST), a first response of
401/403 triggers exactly one refresh attempt; on refresh success the call is
reissued exactly once and the second response is what is classified and
returned (a second consecutive 401/403 surfaces as the upstream error for its
status, with no further retry); on refresh failure the original unauthorized
response is surfaced as the upstream error for its status. -/
theorem auth_retry_once_policy (r1 : HttpResp) (refreshOk : Bool) (r2 : HttpResp)
    (h : r1.status = 401 ∨ r1.status = 403) :
    ((apiGetRun r1 refreshOk r2).2.count ApiAction.refreshAttempt = 1
      ∧ (apiPostRun r1 refreshOk r2).2.count ApiAction.refreshAttempt = 1)
    ∧ (refreshOk = true →
        (apiGetRun r1 refreshOk r2).2.count ApiAction.httpCall = 2
        ∧ (apiGetRun r1 refreshOk r2).1 = classifyResp r2
        ∧ (apiPostRun r1 refreshOk r2).2.count ApiAction.httpCall = 2
        ∧ (apiPostRun r1 refreshOk r2).1 = classifyResp r2)
    ∧ (refreshOk = true → (r2.status = 401 ∨ r2.status = 403) →
        (apiGetRun r1 refreshOk r2).1 = Except.error (ApiErr.upstream r2.status)
        ∧ (apiPostRun r1 refreshOk r2).1 = Except.error (ApiErr.upstream r2.status))
    ∧ (refreshOk = false →
        (apiGetRun r1 refreshOk r2).2.count ApiAction.httpCall = 1
        ∧ (apiGetRun r1 refreshOk r2).1 = Except.error (ApiErr.upstream r1.status)
        ∧ (apiPostRun r1 refreshOk r2).2.count ApiAction.httpCall = 1
        ∧ (apiPostRun r1 refreshOk r2).1 = Except.error (ApiErr.upstream r1.status)) := by
  have h1 := classifyResp_unauthorized r1 h
  cases refreshOk with
  | true =>
      refine ⟨⟨?_, ?_⟩, ?_, ?_, ?_⟩ <;>
        simp [apiGetRun, apiPostRun, h, h1]
      · intro h2
        have := classifyResp_unauthorized r2 h2
        simp [this]
  | false =>
      refine ⟨⟨?_, ?_⟩, ?_, ?_, ?_⟩ <;>
        simp [apiGetRun, apiPostRun, h, h1]

theorem auth_retry_once_policy_witness :
    ((apiGetRun ⟨401, "x"⟩ true ⟨200, "ok"⟩).2.count ApiAction.refreshAttempt = 1
      ∧ (apiPostRun ⟨401, "x"⟩ true ⟨200, "ok"⟩).2.count ApiAction.refreshAttempt = 1)
    ∧ (true = true →
        (apiGetRun ⟨401, "x"⟩ true ⟨200, "ok"⟩).2.count ApiAction.httpCall = 2
        ∧ (apiGetRun ⟨401, "x"⟩ true ⟨200, "ok"⟩).1 = classifyResp ⟨200, "ok"⟩
        ∧ (apiPostRun ⟨401, "x"⟩ true ⟨200, "ok"⟩).2.count ApiAction.httpCall = 2
        ∧ (apiPostRun ⟨401, "x"⟩ true ⟨200, "ok"⟩).1 = classifyResp ⟨200, "ok"⟩)
    ∧ (true = true → ((⟨200, "ok"⟩ : HttpResp).status = 401 ∨ (⟨200, "ok"⟩ : HttpResp).status = 403) →
        (apiGetRun ⟨401, "x"⟩ true ⟨200, "ok"⟩).1 = Except.error (ApiErr.upstream 200)
        ∧ (apiPostRun ⟨401, "x"⟩ true ⟨200, "ok"⟩).1 = Except.error (ApiErr.upstream 200))
    ∧ (true = false →
        (apiGetRun ⟨401, "x"⟩ true ⟨200, "ok"⟩).2.count ApiAction.httpCall = 1
        ∧ (apiGetRun ⟨401, "x"⟩ true ⟨200, "ok"⟩).1 = Except.error (ApiErr.upstream 401)
        ∧ (apiPostRun ⟨401, "x"⟩ true ⟨200, "ok"⟩).2.count ApiAction.httpCall = 1
        ∧ (apiPostRun ⟨401, "x"⟩ true ⟨200, "ok"⟩).1 = Except.error (ApiErr.upstream 401)) :=
  auth_retry_once_policy ⟨401, "x"⟩ true ⟨200, "ok"⟩ (Or.inl rfl)

/-- C2 counterexample: in `get_posts` pagination a 429 raised by a page fetch
does NOT surface to the caller — `envRateLimitedPage` reaches a rate-limited
second page fetch (two `feedPage` requests are issued), yet the call returns
`Except.ok` with the items collected so far instead of the RateLimited error. -/
theorem rate_limit_swallowed_in_pagination_cex :
    (getPosts envRateLimitedPage "alice" 100).2.count Request.feedPage = 2
    ∧ getPosts envRateLimitedPage "alice" 100
        = (Except.ok (aliceIdent,
            [{ id := "p1", postId := "p1", mediaType := .image, url := "http://img"
               thumbnailUrl := none, timestamp := isoTimestamp 5, username := "alice"
               caption := "c", likeCount := 3, carouselIndex := none
               carouselTotal := none }]),
           [Request.feedPage, Request.feedPage])
    ∧ (getPosts envRateLimitedPage "alice" 100).1 ≠ Except.error SvcErr.rateLimited := by
  refine ⟨by decide, by decide, by decide⟩

/-- C2 amended: inside `_api_get`/`_api_post` a 429 is never retried and always
surfaces as the RateLimited error — whether it is the first response or the
response to the post-refresh retry; but when the 429 arises from a page fetch
inside `get_posts` pagination, the error is caught, pagination stops, and the
items collected so far are returned instead. -/
theorem rate_limit_never_retried_amended (r1 : HttpResp) (refreshOk : Bool)
    (r2 : HttpResp) (username : String) (maxPosts : Int) :
    (r1.status = 429 →
        apiGetRun r1 refreshOk r2 = (Except.error ApiErr.rateLimited, [ApiAction.httpCall])
        ∧ apiPostRun r1 refreshOk r2 = (Except.error ApiErr.rateLimited, [ApiAction.httpCall]))
    ∧ ((r1.status = 401 ∨ r1.status = 403) → refreshOk = true → r2.status = 429 →
        (apiGetRun r1 refreshOk r2).1 = Except.error ApiErr.rateLimited
        ∧ (apiPostRun r1 refreshOk r2).1 = Except.error ApiErr.rateLimited)
    ∧ (∀ (rest : List PageResult) (acc : List PostMedia),
        (acc.length : Int) < maxPosts →
        getPostsLoop username maxPosts (PageResult.err ApiErr.rateLimited :: rest) acc
          = (acc, 1)) := by
  refine ⟨?_, ?_, ?_⟩
  · intro h429
    constructor <;> simp [apiGetRun, apiPostRun, classifyResp, h429]
  · intro h hrf h429
    subst hrf
    constructor <;> simp [apiGetRun, apiPostRun, classifyResp, h, h429]
  · intro rest acc hlt
    simp [getPostsLoop, hlt]

theorem rate_limit_never_retried_amended_witness :
    ((⟨429, "x"⟩ : HttpResp).status = 429 →
        apiGetRun ⟨429, "x"⟩ false ⟨200, "y"⟩
          = (Except.error ApiErr.rateLimited, [ApiAction.httpCall])
        ∧ apiPostRun ⟨429, "x"⟩ false ⟨200, "y"⟩
          = (Except.error ApiErr.rateLimited, [ApiAction.httpCall]))
    ∧ (((⟨429, "x"⟩ : HttpResp).status = 401 ∨ (⟨429, "x"⟩ : HttpResp).status = 403) →
        false = true → (⟨200, "y"⟩ : HttpResp).status = 429 →
        (apiGetRun ⟨429, "x"⟩ false ⟨200, "y"⟩).1 = Except.error ApiErr.rateLimited
        ∧ (apiPostRun ⟨429, "x"⟩ false ⟨200, "y"⟩).1 = Except.error ApiErr.rateLimited)
    ∧ (∀ (rest : List PageResult) (acc : List PostMedia),
        (acc.length : Int) < 10 →
        getPostsLoop "u" 10 (PageResult.err ApiErr.rateLimited :: rest) acc
          = (acc, 1)) :=
  rate_limit_never_retried_amended ⟨429, "x"⟩ false ⟨200, "y"⟩ "u" 10

/-- C9: a page fetch that raises after items have been collected is caught —
the loop stops and hands back exactly the items collected so far — and,
whenever resolution succeeds on a non-private user, `get_posts` returns
`Except.ok` no matter what the page fetches do: pagination errors never
propagate to the caller. -/
theorem pagination_error_caught_returns_partial
    (e : ApiErr) (rest : List PageResult) (acc : List PostMedia)
    (username : String) (maxPosts : Int)
    (_hacc : acc ≠ []) (hlen : (acc.length : Int) < maxPosts) :
    getPostsLoop username maxPosts (PageResult.err e :: rest) acc = (acc, 1)
    ∧ ∀ (env : Env) (user : Identity),
        (resolveUser env.loaded env.resolve username).1 = Except.ok user →
        user.isPrivate = false →
        ∃ user1 posts, (getPosts env username maxPosts).1 = Except.ok (user1, posts) := by
  constructor
  · simp [getPostsLoop, hlen]
  · intro env user hres hpriv
    unfold getPosts
    rcases hm : resolveUser env.loaded env.resolve username with ⟨r, tr⟩
    rw [hm] at hres
    simp only at hres
    subst hres
    rcases henr : enrichUserInfo env user with ⟨u1, reqs⟩
    rcases hloop : getPostsLoop username maxPosts env.pages [] with ⟨allPosts, n⟩
    simp [hpriv, henr, hloop]

/-- A sample already-collected media item for the C9 witness. -/
def sampleMedia : PostMedia :=
  { id := "m0", postId := "m0", mediaType := .image, url := "http://m0"
    thumbnailUrl := none, timestamp := isoTimestamp 1, username := "alice"
    caption := "", likeCount := 0, carouselIndex := none, carouselTotal := none }

theorem pagination_error_caught_returns_partial_witness :
    getPostsLoop "alice" 10 [PageResult.err (ApiErr.upstream 500)] [sampleMedia]
      = ([sampleMedia], 1)
    ∧ ∀ (env : Env) (user : Identity),
        (resolveUser env.loaded env.resolve "alice").1 = Except.ok user →
        user.isPrivate = false →
        ∃ user1 posts, (getPosts env "alice" 10).1 = Except.ok (user1, posts) :=
  pagination_error_caught_returns_partial (ApiErr.upstream 500) [] [sampleMedia]
    "alice" 10 (by decide) (by decide)

/-- C3: the resolver runs its strategies in the fixed order — direct profile
lookup, then the search API (which accepts only an exact case-insensitive
username match), then the HTML scrape; a profile-does-not-exist error from
the profile lookup produces NotFound at once with no further strategy run;
any other error from a strategy falls through to the next; and whenever the
scrape does not find an id — a 200 page with no id match, a 404, any other
status, or a raised request — the strategies have exhausted and the result is
NotFound naming the username. -/
theorem resolver_order_shortcircuit_exhaust (env : ResolveEnv) (username : String) :
    ((resolveUser true env username).2 = [Strategy.profileLookup]
      ∨ (resolveUser true env username).2 = [Strategy.profileLookup, Strategy.searchApi]
      ∨ (resolveUser true env username).2
          = [Strategy.profileLookup, Strategy.searchApi, Strategy.htmlScrape])
    ∧ (env.m1 = ProfileLookup.notExists →
        resolveUser true env username
          = (Except.error (SvcErr.notFound username), [Strategy.profileLookup]))
    ∧ (env.m1 = ProfileLookup.err →
        Strategy.searchApi ∈ (resolveUser true env username).2)
    ∧ (env.m1 = ProfileLookup.err →
        (env.m2 = none
          ∨ ∃ users, env.m2 = some users
              ∧ users.find? (fun u => u.username.toLower = username.toLower) = none) →
        Strategy.htmlScrape ∈ (resolveUser true env username).2)
    ∧ (env.m1 = ProfileLookup.err →
        (env.m2 = none
          ∨ ∃ users, env.m2 = some users
              ∧ users.find? (fun u => u.username.toLower = username.toLower) = none) →
        (∀ uid fn pic, env.m3 ≠ ScrapeOutcome.okFound uid fn pic) →
        (resolveUser true env username).1 = Except.error (SvcErr.notFound username)) := by
  refine ⟨?_, ?_, ?_, ?_, ?_⟩
  · rcases h1 : env.m1 with p | _ | _
    · left; simp [resolveUser, h1]
    · left; simp [resolveUser, h1]
    · rcases h2 : env.m2 with _ | users
      · rcases h3 : env.m3 <;> right <;> right <;> simp [resolveUser, h1, h2, h3]
      · rcases hf : users.find? (fun u => u.username.toLower = username.toLower) with _ | u
        · rcases h3 : env.m3 <;> right <;> right <;> simp [resolveUser, h1, h2, hf, h3]
        · right; left; simp [resolveUser, h1, h2, hf]
  · intro h1; simp [resolveUser, h1]
  · intro h1
    rcases h2 : env.m2 with _ | users
    · rcases h3 : env.m3 <;> simp [resolveUser, h1, h2, h3]
    · rcases hf : users.find? (fun u => u.username.toLower = username.toLower) with _ | u
      · rcases h3 : env.m3 <;> simp [resolveUser, h1, h2, hf, h3]
      · simp [resolveUser, h1, h2, hf]
  · rintro h1 (h2 | ⟨users, h2, hf⟩)
    · rcases h3 : env.m3 <;> simp [resolveUser, h1, h2, h3]
    · rcases h3 : env.m3 <;> simp [resolveUser, h1, h2, hf, h3]
  · rintro h1 (h2 | ⟨users, h2, hf⟩) hnf
    · rcases h3 : env.m3 with ⟨uid, fn, pic⟩ | _ | _ | ⟨c⟩ | _
      · exact absurd h3 (hnf uid fn pic)
      · simp [resolveUser, h1, h2, h3]
      · simp [resolveUser, h1, h2, h3]
      · simp [resolveUser, h1, h2, h3]
      · simp [resolveUser, h1, h2, h3]
    · rcases h3 : env.m3 with ⟨uid, fn, pic⟩ | _ | _ | ⟨c⟩ | _
      · exact absurd h3 (hnf uid fn pic)
      · simp [resolveUser, h1, h2, hf, h3]
      · simp [resolveUser, h1, h2, hf, h3]
      · simp [resolveUser, h1, h2, hf, h3]
      · simp [resolveUser, h1, h2, hf, h3]

/-- Resolver environment in which the profile lookup raises
`ProfileNotExistsException`. -/
def envProfileGone : ResolveEnv :=
  { m1 := .notExists, m2 := some [], m3 := .okNoMatch }

theorem resolver_order_shortcircuit_exhaust_witness :
    resolveUser true envProfileGone "bob"
      = (Except.error (SvcErr.notFound "bob"), [Strategy.profileLookup]) :=
  (resolver_order_shortcircuit_exhaust envProfileGone "bob").2.1 rfl

/-- The context fields `_extract_media` copies into every result, independent
of the media branch taken. -/
lemma extractMedia_context_fields (item : MediaPayload)
    (username timestamp caption postId : String) (likeCount : Nat)
    (ci ct : Option Nat) :
    (extractMedia item username timestamp caption postId likeCount ci ct).postId = postId
    ∧ (extractMedia item username timestamp caption postId likeCount ci ct).caption = caption
    ∧ (extractMedia item username timestamp caption postId likeCount ci ct).timestamp = timestamp
    ∧ (extractMedia item username timestamp caption postId likeCount ci ct).likeCount = likeCount
    ∧ (extractMedia item username timestamp caption postId likeCount ci ct).carouselIndex = ci
    ∧ (extractMedia item username timestamp caption postId likeCount ci ct).carouselTotal = ct := by
  cases h : item.videoVersions <;> simp [extractMedia, h]

/-- C5: a carousel post (`media_type == 8`) with N sub-items expands to
exactly N MediaItems; each carries the parent post's id, caption text,
timestamp and like count, each has `carousel_total == N`, and the i-th has
`carousel_index == i`, so the indices cover `0..N-1` exactly once. -/
theorem carousel_expansion (item : PostItem) (username : String)
    (h : item.mediaType = 8) :
    (parsePostItem item username).length = item.carouselMedia.length
    ∧ (parsePostItem item username).map PostMedia.carouselIndex
        = (List.range item.carouselMedia.length).map some
    ∧ ∀ i (hi : i < (parsePostItem item username).length),
        ((parsePostItem item username).get ⟨i, hi⟩).postId = item.pk
        ∧ ((parsePostItem item username).get ⟨i, hi⟩).caption = item.caption.getD ""
        ∧ ((parsePostItem item username).get ⟨i, hi⟩).timestamp = isoTimestamp item.takenAt
        ∧ ((parsePostItem item username).get ⟨i, hi⟩).likeCount = item.likeCount
        ∧ ((parsePostItem item username).get ⟨i, hi⟩).carouselIndex = some i
        ∧ ((parsePostItem item username).get ⟨i, hi⟩).carouselTotal
            = some item.carouselMedia.length := by
  have hlen : (parsePostItem item username).length = item.carouselMedia.length := by
    simp [parsePostItem, h]
  refine ⟨hlen, ?_, ?_⟩
  · apply List.ext_get
    · simp [hlen]
    · intro n h1 h2
      simp [parsePostItem, h, List.getElem_map, List.getElem_enum,
        (extractMedia_context_fields _ _ _ _ _ _ _ _).2.2.2.2.1]
  · intro i hi
    have hL : parsePostItem item username
        = item.carouselMedia.enum.map (fun p =>
            extractMedia p.2 username (isoTimestamp item.takenAt) (item.caption.getD "")
              item.pk item.likeCount (some p.1) (some item.carouselMedia.length)) := by
      simp [parsePostItem, h]
    revert hi
    rw [hL]
    intro hi
    simp only [List.get_eq_getElem, List.getElem_map, List.getElem_enum]
    exact extractMedia_context_fields _ _ _ _ _ _ _ _

/-- A two-image carousel post for the C5 witness. -/
def carouselPost : PostItem :=
  { mediaType := 8, caption := some "cap", takenAt := 9, pk := "c1", likeCount := 4
    carouselMedia := [⟨some "s0", [], [⟨"http://i0"⟩]⟩, ⟨some "s1", [⟨"http://v1"⟩], []⟩]
    videoVersions := [], candidates := [] }

theorem carousel_expansion_witness :
    (parsePostItem carouselPost "alice").length = carouselPost.carouselMedia.length
    ∧ (parsePostItem carouselPost "alice").map PostMedia.carouselIndex
        = (List.range carouselPost.carouselMedia.length).map some
    ∧ ∀ i (hi : i < (parsePostItem carouselPost "alice").length),
        ((parsePostItem carouselPost "alice").get ⟨i, hi⟩).postId = carouselPost.pk
        ∧ ((parsePostItem carouselPost "alice").get ⟨i, hi⟩).caption
            = carouselPost.caption.getD ""
        ∧ ((parsePostItem carouselPost "alice").get ⟨i, hi⟩).timestamp
            = isoTimestamp carouselPost.takenAt
        ∧ ((parsePostItem carouselPost "alice").get ⟨i, hi⟩).likeCount
            = carouselPost.likeCount
        ∧ ((parsePostItem carouselPost "alice").get ⟨i, hi⟩).carouselIndex = some i
        ∧ ((parsePostItem carouselPost "alice").get ⟨i, hi⟩).carouselTotal
            = some carouselPost.carouselMedia.length :=
  carousel_expansion carouselPost "alice" rfl

/-- C6: when resolution yields a private account, both `get_stories` and
`get_posts` fail with the PrivateAccount error and issue no media-fetch
request — neither the reel lookup nor any feed page. -/
theorem private_account_rejected_before_fetch
    (env : Env) (username : String) (maxPosts : Int) (user : Identity)
    (hres : (resolveUser env.loaded env.resolve username).1 = Except.ok user)
    (hpriv : user.isPrivate = true) :
    (getStories env username = (Except.error (SvcErr.privateAccount username), [])
      ∧ Request.reelsMedia ∉ (getStories env username).2)
    ∧ (getPosts env username maxPosts = (Except.error (SvcErr.privateAccount username), [])
      ∧ Request.feedPage ∉ (getPosts env username maxPosts).2) := by
  rcases hm : resolveUser env.loaded env.resolve username with ⟨r, tr⟩
  rw [hm] at hres
  simp only at hres
  subst hres
  constructor
  · have hs : getStories env username = (Except.error (SvcErr.privateAccount username), []) := by
      unfold getStories
      rw [hm]
      simp [hpriv]
    exact ⟨hs, by simp [hs]⟩
  · have hp : getPosts env username maxPosts
        = (Except.error (SvcErr.privateAccount username), []) := by
      unfold getPosts
      rw [hm]
      simp [hpriv]
    exact ⟨hp, by simp [hp]⟩

/-- A resolved private user. -/
def bobPrivateIdent : Identity :=
  { userId := 9, username := "bob", fullName := "Bob", profilePicUrl := ""
    isPrivate := true, followers := 1, mediaCount := none }

/-- Environment resolving to a private account. -/
def envPrivate : Env :=
  { loaded := true
    resolve := { m1 := .found bobPrivateIdent, m2 := none, m3 := .exn }
    enrich := none
    reels := .ok { items := [], ruser := none }
    pages := [] }

theorem private_account_rejected_before_fetch_witness :
    (getStories envPrivate "bob" = (Except.error (SvcErr.privateAccount "bob"), [])
      ∧ Request.reelsMedia ∉ (getStories envPrivate "bob").2)
    ∧ (getPosts envPrivate "bob" 10 = (Except.error (SvcErr.privateAccount "bob"), [])
      ∧ Request.feedPage ∉ (getPosts envPrivate "bob" 10).2) :=
  private_account_rejected_before_fetch envPrivate "bob" 10 bobPrivateIdent rfl rfl

/-- C7: for story items and for post/carousel media alike, the parsed item has
kind video iff `video_versions` was nonempty in the payload; a video's
thumbnail is the first image candidate (absent when there are none); a
non-video has no thumbnail and its URL is the first image candidate. -/
theorem media_kind_video_iff (s : StoryItem) (p : MediaPayload)
    (username timestamp caption postId : String) (likeCount : Nat) (ci ct : Option Nat) :
    ((parseStoryItem s username).mediaType = MediaKind.video ↔ s.videoVersions ≠ [])
    ∧ (s.videoVersions ≠ [] →
        (parseStoryItem s username).thumbnailUrl = (s.candidates.head?).map Variant.url)
    ∧ (s.videoVersions = [] →
        (parseStoryItem s username).thumbnailUrl = none
        ∧ (parseStoryItem s username).url = ((s.candidates.head?).map Variant.url).getD "")
    ∧ ((extractMedia p username timestamp caption postId likeCount ci ct).mediaType
          = MediaKind.video ↔ p.videoVersions ≠ [])
    ∧ (p.videoVersions ≠ [] →
        (extractMedia p username timestamp caption postId likeCount ci ct).thumbnailUrl
          = (p.candidates.head?).map Variant.url)
    ∧ (p.videoVersions = [] →
        (extractMedia p username timestamp caption postId likeCount ci ct).thumbnailUrl = none
        ∧ (extractMedia p username timestamp caption postId likeCount ci ct).url
            = ((p.candidates.head?).map Variant.url).getD "") := by
  cases hs : s.videoVersions <;> cases hp : p.videoVersions <;>
    simp [parseStoryItem, extractMedia, hs, hp]

theorem media_kind_video_iff_witness :
    ((parseStoryItem ⟨"s", [⟨"http://v"⟩], [⟨"http://t"⟩], 3⟩ "alice").mediaType
        = MediaKind.video
      ↔ ([⟨"http://v"⟩] : List Variant) ≠ [])
    ∧ (parseStoryItem ⟨"s", [⟨"http://v"⟩], [⟨"http://t"⟩], 3⟩ "alice").thumbnailUrl
        = some "http://t"
    ∧ (extractMedia ⟨some "q", [], [⟨"http://u"⟩]⟩ "alice" "t" "c" "p" 0 none none).thumbnailUrl
        = none
    ∧ (extractMedia ⟨some "q", [], [⟨"http://u"⟩]⟩ "alice" "t" "c" "p" 0 none none).url
        = "http://u" := by
  have h := media_kind_video_iff ⟨"s", [⟨"http://v"⟩], [⟨"http://t"⟩], 3⟩
    ⟨some "q", [], [⟨"http://u"⟩]⟩ "alice" "t" "c" "p" 0 none none
  refine ⟨h.1, ?_, ?_, ?_⟩
  · have := h.2.1 (by decide)
    simpa using this
  · exact (h.2.2.2.2.2 rfl).1
  · have := (h.2.2.2.2.2 rfl).2
    simpa using this

/-- C8: with no session files and no environment credentials, `load_session`
fails and leaves the service unloaded, `session_status` reports
`logged_in = false`, and every authenticated operation fails with
SessionMissing while issuing no outbound request. -/
theorem session_missing_when_no_files_no_creds
    (senv : SessionEnv) (cookie : Bool)
    (hfiles : senv.files = []) (hcreds : senv.creds = none) :
    loadSession senv initState = (initState, false)
    ∧ (sessionStatus (loadSession senv initState).1 cookie).loggedIn = false
    ∧ ∀ (env : Env) (username : String) (maxPosts : Int),
        env.loaded = false →
        getStories env username = (Except.error SvcErr.sessionMissing, [])
        ∧ getPosts env username maxPosts = (Except.error SvcErr.sessionMissing, []) := by
  have hload : loadSession senv initState = (initState, false) := by
    simp [loadSession, initState, hfiles, newestSessionFile, tryLogin, hcreds]
  refine ⟨hload, by rw [hload]; simp [sessionStatus, initState], ?_⟩
  intro env username maxPosts hl
  constructor
  · simp [getStories, resolveUser, hl]
  · simp [getPosts, resolveUser, hl]

theorem session_missing_when_no_files_no_creds_witness :
    loadSession ⟨none, .otherErr, [], false, false⟩ initState = (initState, false)
    ∧ (sessionStatus (loadSession ⟨none, .otherErr, [], false, false⟩ initState).1 false).loggedIn
        = false
    ∧ ∀ (env : Env) (username : String) (maxPosts : Int),
        env.loaded = false →
        getStories env username = (Except.error SvcErr.sessionMissing, [])
        ∧ getPosts env username maxPosts = (Except.error SvcErr.sessionMissing, []) :=
  session_missing_when_no_files_no_creds ⟨none, .otherErr, [], false, false⟩ false rfl rfl

/-- Fetch-count bound for the pagination loop: when every scripted page
carries at least `page_size` parsed items, each non-final fetch advances the
accumulator by at least `page_size`, giving the ceiling bound. -/
lemma getPostsLoop_fetch_bound (username : String) (maxPosts : Int)
    (pages : List PageResult) (acc : List PostMedia)
    (hbig : ∀ items more nextId, PageResult.ok items more nextId ∈ pages →
        pageSize ≤ ((items.map (fun it => parsePostItem it username)).flatten).length) :
    (getPostsLoop username maxPosts pages acc).2
      ≤ (maxPosts.toNat - acc.length + pageSize - 1) / pageSize := by
  induction pages generalizing acc with
  | nil => simp [getPostsLoop]
  | cons page rest ih =>
    by_cases hlt : (acc.length : Int) < maxPosts
    · have ha : acc.length < maxPosts.toNat := by omega
      have hge1 : 1 ≤ (maxPosts.toNat - acc.length + pageSize - 1) / pageSize := by
        simp only [pageSize]
        omega
      cases page with
      | err e =>
          have hstep :
              (getPostsLoop username maxPosts (PageResult.err e :: rest) acc).2 = 1 := by
            simp [getPostsLoop, hlt]
          rw [hstep]
          exact hge1
      | ok items more nextId =>
          by_cases hempty : items.isEmpty
          · have hstep :
                (getPostsLoop username maxPosts
                  (PageResult.ok items more nextId :: rest) acc).2 = 1 := by
              simp [getPostsLoop, hlt, hempty]
            rw [hstep]
            exact hge1
          · have hp : pageSize
                ≤ ((items.map (fun it => parsePostItem it username)).flatten).length :=
              hbig items more nextId (List.mem_cons_self _ _)
            by_cases hmore : more
            · by_cases htok : nextId.getD "" = ""
              · have hstep :
                    (getPostsLoop username maxPosts
                      (PageResult.ok items more nextId :: rest) acc).2 = 1 := by
                  simp [getPostsLoop, hlt, hempty, hmore, htok]
                rw [hstep]
                exact hge1
              · rcases hrec : getPostsLoop username maxPosts rest
                    (acc ++ (items.map (fun it => parsePostItem it username)).flatten)
                  with ⟨res, n⟩
                have hrecle := ih
                  (acc ++ (items.map (fun it => parsePostItem it username)).flatten)
                  (fun items' more' nid' hmem =>
                    hbig items' more' nid' (List.mem_cons_of_mem _ hmem))
                rw [hrec] at hrecle
                simp only at hrecle
                have hstep : (getPostsLoop username maxPosts
                    (PageResult.ok items more nextId :: rest) acc).2 = n + 1 := by
                  simp [getPostsLoop, hlt, hempty, hmore, htok, hrec]
                rw [hstep]
                rw [List.length_append] at hrecle
                simp only [pageSize] at hrecle hp ⊢
                omega
            · have hstep :
                  (getPostsLoop username maxPosts
                    (PageResult.ok items more nextId :: rest) acc).2 = 1 := by
                simp [getPostsLoop, hlt, hempty, hmore]
              rw [hstep]
              exact hge1
    · simp [getPostsLoop, hlt]

/-- `_enrich_user_info` never issues a feed-page request. -/
lemma enrichUserInfo_count_feedPage (env : Env) (user : Identity) :
    (enrichUserInfo env user).2.count Request.feedPage = 0 := by
  unfold enrichUserInfo
  split
  · simp
  · split <;> simp [List.count_cons]

/-- C4 counterexample: pages carrying fewer than `page_size` items defeat the
ceiling fetch bound — with `max_posts = 2` and two one-item pages,
`get_posts` issues 2 page fetches while `ceil(2 / 12) = 1`. -/
theorem posts_pagination_fetch_bound_cex :
    (getPosts envSmallPages "alice" 2).2.count Request.feedPage = 2
    ∧ ¬((getPosts envSmallPages "alice" 2).2.count Request.feedPage
          ≤ ((2 : Int).toNat + pageSize - 1) / pageSize) := by
  exact ⟨by decide, by decide⟩

/-- C4 amended: the returned posts list never exceeds `max_posts` elements;
and pagination performs at most `ceil(max_posts / page_size)` page fetches
provided every fetched page yields at least `page_size` parsed items — when
the upstream returns fewer items per page, more fetches can occur. -/
theorem posts_pagination_bounds (env : Env) (username : String) (maxPosts : Int) :
    (∀ user posts, (getPosts env username maxPosts).1 = Except.ok (user, posts) →
        posts.length ≤ maxPosts.toNat)
    ∧ ((∀ items more nextId, PageResult.ok items more nextId ∈ env.pages →
          pageSize ≤ ((items.map (fun it => parsePostItem it username)).flatten).length) →
        (getPosts env username maxPosts).2.count Request.feedPage
          ≤ (maxPosts.toNat + pageSize - 1) / pageSize) := by
  constructor
  · exact fun user posts h => getPosts_ok_length_le env username maxPosts user posts h
  · intro hbig
    have hloopb := getPostsLoop_fetch_bound username maxPosts env.pages [] hbig
    unfold getPosts
    rcases hres : resolveUser env.loaded env.resolve username with ⟨r, tr⟩
    cases r with
    | error e => simp
    | ok u =>
      by_cases hpv : u.isPrivate
      · simp [hpv]
      · rcases henr : enrichUserInfo env u with ⟨u1, reqs⟩
        rcases hloop : getPostsLoop username maxPosts env.pages [] with ⟨allPosts, n⟩
        rw [hloop] at hloopb
        simp only [List.length_nil, Nat.sub_zero] at hloopb
        have hreqs : reqs.count Request.feedPage = 0 := by
          have h0 := enrichUserInfo_count_feedPage env u
          rw [henr] at h0
          exact h0
        simp [hpv, henr, hloop, List.count_append, hreqs, List.count_replicate]
        exact hloopb

theorem posts_pagination_bounds_witness :
    fullPagePosts.length ≤ (20 : Int).toNat
    ∧ (getPosts envFullPage "alice" 20).2.count Request.feedPage
        ≤ ((20 : Int).toNat + pageSize - 1) / pageSize :=
  ⟨(posts_pagination_bounds envFullPage "alice" 20).1 aliceIdent fullPagePosts (by decide),
   (posts_pagination_bounds envFullPage "alice" 20).2 (by
      intro items more nextId hmem
      simp only [envFullPage, List.mem_singleton] at hmem
      cases hmem
      decide)⟩

/-- C10: the posts HTTP endpoint invokes the service with
`max_posts = min(count, 500)`, so a successful response never carries more
than 500 posts, however large a `count` the caller requests. -/
theorem posts_endpoint_count_cap (env : Env) (username : String) (count : Int) :
    apiGetPosts env username count = getPosts env username (min count 500)
    ∧ ∀ user posts, (apiGetPosts env username count).1 = Except.ok (user, posts) →
        posts.length ≤ 500 := by
  refine ⟨rfl, ?_⟩
  intro user posts h
  have h1 := getPosts_ok_length_le env username (min count 500) user posts h
  omega

theorem posts_endpoint_count_cap_witness :
    fullPagePosts.length ≤ 500 :=
  (posts_endpoint_count_cap envFullPage "alice" 600).2 aliceIdent fullPagePosts (by decide)

end Portfolio
